import Mathlib

/-!
Verification of `src/MaxText/layers/deepseek.py` (the DeepSeek-V3 decoder
layer for MaxText).

The file under verification is declarative graph assembly: it wires
external collaborator modules (RMSNorm, multi-head latent attention,
MlpBlock, MoeBlock) together with residual additions, logical sharding
constraints and optional metric sowing.  We embed it shallowly:

* a tensor is a flat list of rationals; elementwise addition is
  `List.zipWith (· + ·)` (`jnpAdd`);
* each collaborator is an abstract function, a field of a `Collaborators`
  environment; the argument records the layer builds for each collaborator
  (`RMSNormArgs`, `MLAArgs`, `MlpArgs`, `MoeArgs`) are embedded literally
  from the keyword arguments in the source;
* `nn.with_logical_constraint` is value-identity in JAX (it only attaches
  sharding metadata), so the embedding returns the tensor unchanged while
  logging the `(tensor, axis names)` pair into a trace, which lets us state
  which intermediates are constrained and with which axes;
* `self.sow` appends a `(collection, name, value)` triple to a sow trace.
  `jnp.mean` and `jnp.std` are kept symbolic (their values are never
  claimed); the `activation_fraction_zero` value is computed exactly as in
  the source: `jnp.sum(layer_output == 0) / jnp.size(layer_output)`.
-/

/-- A tensor is modelled as the flat list of its entries. -/
abbrev Tensor : Type := List ℚ

/-- Elementwise addition of equally shaped arrays (`a + b` in jax.numpy). -/
def jnpAdd (a b : Tensor) : Tensor := List.zipWith (· + ·) a b

/-- The size `jnp.size(t)`: the number of entries. -/
def jnpSize (t : Tensor) : ℕ := t.length

/-- The sum `jnp.sum(t == 0)`: the boolean array `t == 0` summed as 0/1 values. -/
def jnpSumEqZero (t : Tensor) : ℚ := (t.map (fun x => if x = 0 then 1 else 0)).sum

/-- The value sown as `activation_fraction_zero`:
`jnp.sum(layer_output == 0) / jnp.size(layer_output)`. -/
def activationFractionZero (t : Tensor) : ℚ := jnpSumEqZero t / (jnpSize t : ℚ)

/-- The tag `checkpoint_name(t, name)` is value-identity (it only tags the value for
rematerialisation). -/
def checkpointName (t : Tensor) (_name : String) : Tensor := t

/-- Logical axis names, as passed to `nn.with_logical_constraint`. -/
abbrev AxisNames : Type := String × String × String

/-- The axis triple used for every activation constraint in this layer. -/
def activationAxes : AxisNames := ("activation_batch", "activation_norm_length", "activation_embed")

/-- One logged `nn.with_logical_constraint` application: the wrapped tensor
and the axis names it was constrained with. -/
abbrev ConstraintEntry : Type := Tensor × AxisNames

/-- The constraint `nn.with_logical_constraint(t, ax)`: value-identity on the tensor, logged
into the running constraint trace. -/
def withLogicalConstraint (log : List ConstraintEntry) (t : Tensor) (ax : AxisNames) :
    List ConstraintEntry × Tensor :=
  (log ++ [(t, ax)], t)

/-- A value passed to `self.sow`.  `jnp.mean` and `jnp.std` of a tensor are
kept symbolic; `activation_fraction_zero` carries its computed value. -/
inductive SownValue : Type
  | mean (t : Tensor)
  | stdev (t : Tensor)
  | fractionZero (v : ℚ)
deriving DecidableEq, Repr

/-- One `self.sow(collection, name, value)` record. -/
abbrev SowEntry : Type := String × String × SownValue

/-- The configuration fields this layer reads (`cfg.…` in the source). -/
structure Config : Type where
  dtype : String
  weight_dtype : String
  normalization_layer_epsilon : ℚ
  num_query_heads : ℕ
  q_lora_rank : ℕ
  kv_lora_rank : ℕ
  qk_nope_head_dim : ℕ
  qk_rope_head_dim : ℕ
  head_dim : ℕ
  max_target_length : ℕ
  max_prefill_predict_length : ℕ
  attention : String
  mlp_dim : ℕ
  mlp_activations : List String
  dropout_rate : ℚ
  num_experts : ℕ
  num_experts_per_tok : ℕ
  num_shared_experts : ℕ
  record_internal_nn_metrics : Bool
  scan_layers : Bool
deriving DecidableEq, Repr

/-- Opaque carrier for the sharding mesh (consumed, never inspected, here). -/
abbrev MeshT : Type := String

/-- Opaque carrier for an AQT quantization configuration (`self.quant`). -/
abbrev QuantT : Type := Option Unit

/-- Opaque carrier for a KV-cache quantization configuration. -/
abbrev KvQuantT : Type := Option Unit

/-- Opaque carrier for `decoder_segment_ids`. -/
abbrev SegIds : Type := Option (List ℕ)

/-- Opaque carrier for `decoder_positions`. -/
abbrev Positions : Type := List ℕ

/-- Opaque carrier for `model_mode`. -/
abbrev ModelMode : Type := String

/-- Keyword arguments of a `models.RMSNorm(...)` construction. -/
structure RMSNormArgs : Type where
  dtype : String
  weight_dtype : String
  name : String
  kernel_axes : List String
  epsilon : ℚ
deriving DecidableEq, Repr

/-- Keyword arguments of the `attentions.MLA(...)` construction. -/
structure MLAArgs : Type where
  config : Config
  num_heads : ℕ
  q_lora_rank : ℕ
  kv_lora_rank : ℕ
  qk_nope_head_dim : ℕ
  qk_rope_head_dim : ℕ
  v_head_dim : ℕ
  max_target_length : ℕ
  max_prefill_predict_length : ℕ
  attention_kernel : String
  mesh : MeshT
  dtype : String
  weight_dtype : String
  name : String
  quant : QuantT
  kv_quant : KvQuantT
deriving DecidableEq, Repr

/-- The call arguments of the attention layer beyond the two tensor inputs. -/
structure AttnCallArgs : Type where
  decoder_positions : Positions
  decoder_segment_ids : SegIds
  deterministic : Bool
  model_mode : ModelMode
deriving DecidableEq, Repr

/-- Keyword arguments of a `linears.MlpBlock(...)` construction. -/
structure MlpArgs : Type where
  intermediate_dim : ℕ
  activations : List String
  intermediate_dropout_rate : ℚ
  dtype : String
  weight_dtype : String
  name : String
  config : Config
  quant : QuantT
deriving DecidableEq, Repr

/-- The kernel initializer `initializers.nd_dense_init(1.0, "fan_in",
"truncated_normal")`, kept symbolic as its three arguments. -/
structure NdDenseInit : Type where
  scale : ℚ
  mode : String
  distribution : String
deriving DecidableEq, Repr

/-- Keyword arguments of the `linears.MoeBlock(...)` construction. -/
structure MoeArgs : Type where
  config : Config
  num_experts : ℕ
  num_experts_per_tok : ℕ
  mesh : MeshT
  kernel_init : NdDenseInit
  kernel_axes : String × Option String
  dtype : String
  weight_dtype : String
  quant : QuantT
deriving DecidableEq, Repr

/-- The external collaborator modules, consumed only through their call
interfaces (out of scope for this file, per the spec). -/
structure Collaborators : Type where
  RMSNorm : RMSNormArgs → Tensor → Tensor
  MLA : MLAArgs → Tensor → Tensor → AttnCallArgs → Tensor
  MlpBlock : MlpArgs → Tensor → Bool → Tensor
  MoeBlock : MoeArgs → Tensor → Tensor × Unit
  configure_kv_quant : Config → KvQuantT

/-- The `pre_self_attention_layer_norm` construction arguments. -/
def preSelfAttentionNormArgs (cfg : Config) : RMSNormArgs :=
  { dtype := cfg.dtype
    weight_dtype := cfg.weight_dtype
    name := "pre_self_attention_layer_norm"
    kernel_axes := ["norm"]
    epsilon := cfg.normalization_layer_epsilon }

/-- The `post_self_attention_layer_norm` construction arguments. -/
def postSelfAttentionNormArgs (cfg : Config) : RMSNormArgs :=
  { dtype := cfg.dtype
    weight_dtype := cfg.weight_dtype
    name := "post_self_attention_layer_norm"
    kernel_axes := ["norm"]
    epsilon := cfg.normalization_layer_epsilon }

/-- The `self_attention` MLA construction arguments. -/
def selfAttentionArgs (env : Collaborators) (cfg : Config) (mesh : MeshT) (quant : QuantT) :
    MLAArgs :=
  { config := cfg
    num_heads := cfg.num_query_heads
    q_lora_rank := cfg.q_lora_rank
    kv_lora_rank := cfg.kv_lora_rank
    qk_nope_head_dim := cfg.qk_nope_head_dim
    qk_rope_head_dim := cfg.qk_rope_head_dim
    v_head_dim := cfg.head_dim
    max_target_length := cfg.max_target_length
    max_prefill_predict_length := cfg.max_prefill_predict_length
    attention_kernel := cfg.attention
    mesh := mesh
    dtype := cfg.dtype
    weight_dtype := cfg.weight_dtype
    name := "self_attention"
    quant := quant
    kv_quant := env.configure_kv_quant cfg }

/-- The dense-branch `linears.MlpBlock` construction arguments. -/
def denseMlpArgs (cfg : Config) (quant : QuantT) : MlpArgs :=
  { intermediate_dim := cfg.mlp_dim * (cfg.num_experts_per_tok + cfg.num_shared_experts)
    activations := cfg.mlp_activations
    intermediate_dropout_rate := cfg.dropout_rate
    dtype := cfg.dtype
    weight_dtype := cfg.weight_dtype
    name := "mlp"
    config := cfg
    quant := quant }

/-- The shared-experts `linears.MlpBlock` construction arguments. -/
def sharedMlpArgs (cfg : Config) (quant : QuantT) : MlpArgs :=
  { intermediate_dim := cfg.mlp_dim * cfg.num_shared_experts
    activations := cfg.mlp_activations
    intermediate_dropout_rate := cfg.dropout_rate
    dtype := cfg.dtype
    weight_dtype := cfg.weight_dtype
    name := "mlp"
    config := cfg
    quant := quant }

/-- The routed-experts `linears.MoeBlock` construction arguments. -/
def moeArgs (cfg : Config) (mesh : MeshT) (quant : QuantT) : MoeArgs :=
  { config := cfg
    num_experts := cfg.num_experts
    num_experts_per_tok := cfg.num_experts_per_tok
    mesh := mesh
    kernel_init := { scale := 1, mode := "fan_in", distribution := "truncated_normal" }
    kernel_axes := ("embed", none)
    dtype := cfg.dtype
    weight_dtype := cfg.weight_dtype
    quant := quant }

/-- The Python return value: `(layer_output, None)` when scanning, else the
bare tensor. -/
inductive CallResult : Type
  | pair (fst : Tensor) (snd : Option Tensor)
  | single (t : Tensor)
deriving DecidableEq, Repr

/-- Everything a call produces: the returned value plus the traces of
logical-constraint applications and `self.sow` effects. -/
structure CallOutput : Type where
  result : CallResult
  constraints : List ConstraintEntry
  sows : List SowEntry
deriving DecidableEq, Repr

/-- The layer-output tensor inside a `CallResult`. -/
def CallResult.layerOutput : CallResult → Tensor
  | .pair t _ => t
  | .single t => t

/-- The method `DeepSeekDecoderLayer.__call__`, embedded line by line from
`src/MaxText/layers/deepseek.py`. -/
def deepSeekDecoderLayerCall (env : Collaborators) (cfg : Config) (mesh : MeshT)
    (quant : QuantT) (inputs0 : Tensor) (decoder_segment_ids : SegIds)
    (decoder_positions : Positions) (deterministic : Bool) (model_mode : ModelMode)
    (dense_layer : Bool) : CallOutput :=
  let (c0, inputs) := withLogicalConstraint [] inputs0 activationAxes
  let inputs := checkpointName inputs "decoder_layer_input"
  let lnx := env.RMSNorm (preSelfAttentionNormArgs cfg) inputs
  let (c1, lnx) := withLogicalConstraint c0 lnx activationAxes
  let attention_lnx := env.MLA (selfAttentionArgs env cfg mesh quant) lnx lnx
    { decoder_positions := decoder_positions
      decoder_segment_ids := decoder_segment_ids
      deterministic := deterministic
      model_mode := model_mode }
  let (c2, attention_lnx) := withLogicalConstraint c1 attention_lnx activationAxes
  let intermediate_inputs := jnpAdd inputs attention_lnx
  let hidden_states := env.RMSNorm (postSelfAttentionNormArgs cfg) intermediate_inputs
  let (c3, hidden_states) := withLogicalConstraint c2 hidden_states activationAxes
  let (c4, mlp_lnx) :=
    if dense_layer then
      let mlp_lnx := env.MlpBlock (denseMlpArgs cfg quant) hidden_states deterministic
      withLogicalConstraint c3 mlp_lnx activationAxes
    else
      let mlp_shared_lnx := env.MlpBlock (sharedMlpArgs cfg quant) hidden_states deterministic
      let (c3a, mlp_shared_lnx) := withLogicalConstraint c3 mlp_shared_lnx activationAxes
      let (mlp_routed_lnx, _aux) := env.MoeBlock (moeArgs cfg mesh quant) hidden_states
      let (c3b, mlp_routed_lnx) := withLogicalConstraint c3a mlp_routed_lnx activationAxes
      let mlp_lnx := jnpAdd mlp_shared_lnx mlp_routed_lnx
      withLogicalConstraint c3b mlp_lnx activationAxes
  let layer_output := jnpAdd mlp_lnx intermediate_inputs
  let (c5, layer_output) := withLogicalConstraint c4 layer_output activationAxes
  let sows : List SowEntry :=
    if cfg.record_internal_nn_metrics then
      [("intermediates", "activation_mean", SownValue.mean layer_output),
       ("intermediates", "activation_stdev", SownValue.stdev layer_output),
       ("intermediates", "activation_fraction_zero",
         SownValue.fractionZero (activationFractionZero layer_output))]
    else []
  let result :=
    if cfg.scan_layers then CallResult.pair layer_output none
    else CallResult.single layer_output
  { result := result, constraints := c5, sows := sows }

/-! ### Helper lemmas about elementwise addition and zero counting -/

theorem jnpAdd_comm (a b : Tensor) : jnpAdd a b = jnpAdd b a := by
  unfold jnpAdd
  exact List.zipWith_comm_of_comm (· + ·) (fun x y => add_comm x y) a b

theorem jnpSumEqZero_eq_countP (t : Tensor) :
    jnpSumEqZero t = (t.countP (fun x => x == 0) : ℚ) := by
  induction t with
  | nil => simp [jnpSumEqZero]
  | cons x xs ih =>
      simp only [jnpSumEqZero, List.map_cons, List.sum_cons, List.countP_cons] at *
      by_cases hx : x = 0 <;> simp [hx, ih, add_comm]

theorem countP_le_length (t : Tensor) : t.countP (fun x => x == 0) ≤ t.length :=
  List.countP_le_length _

/-! ### A concrete sample environment and configuration (used by witnesses) -/

/-- A concrete collaborator environment for evaluating the layer on sample
inputs: each block is a simple total function of the right type. -/
def sampleEnv : Collaborators where
  RMSNorm := fun _ t => t
  MLA := fun _ q _kv _a => q
  MlpBlock := fun _ t _d => t
  MoeBlock := fun _ t => (t, ())
  configure_kv_quant := fun _ => none

/-- A concrete configuration for evaluating the layer on sample inputs. -/
def sampleConfig : Config where
  dtype := "bfloat16"
  weight_dtype := "float32"
  normalization_layer_epsilon := 1 / 1000000
  num_query_heads := 4
  q_lora_rank := 2
  kv_lora_rank := 2
  qk_nope_head_dim := 3
  qk_rope_head_dim := 3
  head_dim := 3
  max_target_length := 16
  max_prefill_predict_length := 8
  attention := "dot_product"
  mlp_dim := 8
  mlp_activations := ["silu", "linear"]
  dropout_rate := 0
  num_experts := 4
  num_experts_per_tok := 2
  num_shared_experts := 1
  record_internal_nn_metrics := true
  scan_layers := false

theorem layerOutput_ite (c : Bool) (t : Tensor) :
    (if c then CallResult.pair t none else CallResult.single t).layerOutput = t := by
  cases c <;> rfl

/-- Claim C1: for every call to `DeepSeekDecoderLayer.__call__`, the
feed-forward contribution is selected by `dense_layer`: if `dense_layer` is
true it is a single dense `MlpBlock` applied to the post-attention
normalized hidden states, otherwise it is the elementwise sum of a
shared-experts `MlpBlock` output and a routed `MoeBlock` output, both
applied to that same normalized hidden-states tensor. -/
theorem feedForward_selected_by_dense_layer
    (env : Collaborators) (cfg : Config) (mesh : MeshT) (quant : QuantT)
    (inputs : Tensor) (ids : SegIds) (pos : Positions) (det : Bool)
    (mode : ModelMode) (dense_layer : Bool) :
    (deepSeekDecoderLayerCall env cfg mesh quant inputs ids pos det mode
        dense_layer).result.layerOutput =
      (let lnx := env.RMSNorm (preSelfAttentionNormArgs cfg) inputs
       let attention_lnx := env.MLA (selfAttentionArgs env cfg mesh quant) lnx lnx
         { decoder_positions := pos, decoder_segment_ids := ids,
           deterministic := det, model_mode := mode }
       let intermediate_inputs := jnpAdd inputs attention_lnx
       let hidden_states := env.RMSNorm (postSelfAttentionNormArgs cfg) intermediate_inputs
       let mlp_lnx :=
         if dense_layer then
           env.MlpBlock (denseMlpArgs cfg quant) hidden_states det
         else
           jnpAdd (env.MlpBlock (sharedMlpArgs cfg quant) hidden_states det)
             (env.MoeBlock (moeArgs cfg mesh quant) hidden_states).1
       jnpAdd mlp_lnx intermediate_inputs) := by
  cases dense_layer <;>
    simp [deepSeekDecoderLayerCall, withLogicalConstraint, checkpointName,
      layerOutput_ite]

/-- Claim C7: the shape of the returned value depends only on
`cfg.scan_layers`: if it is true the layer returns the pair
`(layer_output, None)`, otherwise `layer_output` alone; in both cases the
layer-output tensor is the same value. -/
theorem returnShape_depends_only_on_scan_layers
    (env : Collaborators) (cfg : Config) (mesh : MeshT) (quant : QuantT)
    (inputs : Tensor) (ids : SegIds) (pos : Positions) (det : Bool)
    (mode : ModelMode) (dense_layer : Bool) :
    ((deepSeekDecoderLayerCall env cfg mesh quant inputs ids pos det mode
        dense_layer).result =
      (let layer_output := (deepSeekDecoderLayerCall env cfg mesh quant inputs
          ids pos det mode dense_layer).result.layerOutput
       if cfg.scan_layers then CallResult.pair layer_output none
       else CallResult.single layer_output)) ∧
    (cfg.scan_layers = true →
      (deepSeekDecoderLayerCall env cfg mesh quant inputs ids pos det mode
          dense_layer).result =
        CallResult.pair
          ((deepSeekDecoderLayerCall env cfg mesh quant inputs ids pos det mode
              dense_layer).result.layerOutput) none) ∧
    (cfg.scan_layers = false →
      (deepSeekDecoderLayerCall env cfg mesh quant inputs ids pos det mode
          dense_layer).result =
        CallResult.single
          ((deepSeekDecoderLayerCall env cfg mesh quant inputs ids pos det mode
              dense_layer).result.layerOutput)) := by
  refine ⟨?_, fun h => ?_, fun h => ?_⟩
  · cases hs : cfg.scan_layers <;> cases dense_layer <;>
      simp [deepSeekDecoderLayerCall, withLogicalConstraint, checkpointName,
        CallResult.layerOutput, hs]
  · cases dense_layer <;>
      simp [deepSeekDecoderLayerCall, withLogicalConstraint, checkpointName,
        CallResult.layerOutput, h]
  · cases dense_layer <;>
      simp [deepSeekDecoderLayerCall, withLogicalConstraint, checkpointName,
        CallResult.layerOutput, h]

/-- Claim C2: both residual connections are present: the post-attention
intermediate equals the original (unnormalized) inputs plus the attention
output, the returned layer output equals the feed-forward output plus that
intermediate, and hence (sharding constraints being value-identity) the
layer output equals inputs + attention output + feed-forward output. -/
theorem residual_connections
    (env : Collaborators) (cfg : Config) (mesh : MeshT) (quant : QuantT)
    (inputs : Tensor) (ids : SegIds) (pos : Positions) (det : Bool)
    (mode : ModelMode) (dense_layer : Bool) :
    (let lnx := env.RMSNorm (preSelfAttentionNormArgs cfg) inputs
     let attention_lnx := env.MLA (selfAttentionArgs env cfg mesh quant) lnx lnx
       { decoder_positions := pos, decoder_segment_ids := ids,
         deterministic := det, model_mode := mode }
     let intermediate_inputs := jnpAdd inputs attention_lnx
     let hidden_states := env.RMSNorm (postSelfAttentionNormArgs cfg) intermediate_inputs
     let mlp_lnx :=
       if dense_layer then
         env.MlpBlock (denseMlpArgs cfg quant) hidden_states det
       else
         jnpAdd (env.MlpBlock (sharedMlpArgs cfg quant) hidden_states det)
           (env.MoeBlock (moeArgs cfg mesh quant) hidden_states).1
     let out := (deepSeekDecoderLayerCall env cfg mesh quant inputs ids pos det
         mode dense_layer).result.layerOutput
     out = jnpAdd mlp_lnx intermediate_inputs ∧
     out = jnpAdd (jnpAdd inputs attention_lnx) mlp_lnx) := by
  cases dense_layer <;>
    refine ⟨?_, ?_⟩ <;>
    simp [deepSeekDecoderLayerCall, withLogicalConstraint, checkpointName,
      layerOutput_ite] <;>
    apply jnpAdd_comm

/-- Claim C3: normalization is pre-normalization: an `RMSNorm` with epsilon
`cfg.normalization_layer_epsilon` is applied to the inputs before the
attention block, a second `RMSNorm` is applied to the post-attention
intermediate before the feed-forward block, both residual additions use the
unnormalized tensors, and no normalization is applied after the final
residual addition. -/
theorem pre_normalization
    (env : Collaborators) (cfg : Config) (mesh : MeshT) (quant : QuantT)
    (inputs : Tensor) (ids : SegIds) (pos : Positions) (det : Bool)
    (mode : ModelMode) (dense_layer : Bool) :
    (preSelfAttentionNormArgs cfg).epsilon = cfg.normalization_layer_epsilon ∧
    (postSelfAttentionNormArgs cfg).epsilon = cfg.normalization_layer_epsilon ∧
    (let lnx := env.RMSNorm (preSelfAttentionNormArgs cfg) inputs
     let attention_lnx := env.MLA (selfAttentionArgs env cfg mesh quant) lnx lnx
       { decoder_positions := pos, decoder_segment_ids := ids,
         deterministic := det, model_mode := mode }
     let intermediate_inputs := jnpAdd inputs attention_lnx
     let hidden_states := env.RMSNorm (postSelfAttentionNormArgs cfg) intermediate_inputs
     let mlp_lnx :=
       if dense_layer then
         env.MlpBlock (denseMlpArgs cfg quant) hidden_states det
       else
         jnpAdd (env.MlpBlock (sharedMlpArgs cfg quant) hidden_states det)
           (env.MoeBlock (moeArgs cfg mesh quant) hidden_states).1
     (deepSeekDecoderLayerCall env cfg mesh quant inputs ids pos det mode
         dense_layer).result.layerOutput = jnpAdd mlp_lnx intermediate_inputs) := by
  refine ⟨rfl, rfl, ?_⟩
  cases dense_layer <;>
    simp [deepSeekDecoderLayerCall, withLogicalConstraint, checkpointName,
      layerOutput_ite]

/-- Claim C4: the attention block is the multi-head latent attention
implementation (`attentions.MLA`, constructed with name `self_attention`
and the config-derived dimensions), and it is invoked as self-attention:
the same pre-normalized tensor `lnx` is passed as both of its first two
inputs, together with `decoder_positions`, `decoder_segment_ids`,
`deterministic`, and `model_mode`. -/
theorem attention_is_self_attention_MLA
    (env : Collaborators) (cfg : Config) (mesh : MeshT) (quant : QuantT)
    (inputs : Tensor) (ids : SegIds) (pos : Positions) (det : Bool)
    (mode : ModelMode) (dense_layer : Bool) :
    (let lnx := env.RMSNorm (preSelfAttentionNormArgs cfg) inputs
     let attention_lnx := env.MLA (selfAttentionArgs env cfg mesh quant) lnx lnx
       { decoder_positions := pos, decoder_segment_ids := ids,
         deterministic := det, model_mode := mode }
     (deepSeekDecoderLayerCall env cfg mesh quant inputs ids pos det mode
         dense_layer).constraints.get? 2 = some (attention_lnx, activationAxes)) ∧
    (selfAttentionArgs env cfg mesh quant).name = "self_attention" ∧
    (selfAttentionArgs env cfg mesh quant).num_heads = cfg.num_query_heads ∧
    (selfAttentionArgs env cfg mesh quant).v_head_dim = cfg.head_dim ∧
    (selfAttentionArgs env cfg mesh quant).attention_kernel = cfg.attention := by
  refine ⟨?_, rfl, rfl, rfl, rfl⟩
  cases dense_layer <;>
    simp [deepSeekDecoderLayerCall, withLogicalConstraint, checkpointName]

/-- Claim C6: every intermediate activation of the layer — the inputs, the
pre-attention normalized tensor, the attention output, the post-attention
normalized hidden states, each feed-forward output (dense in one branch;
shared, routed and their sum in the other), and the final layer output —
is wrapped in a logical sharding constraint with the axis names
`("activation_batch", "activation_norm_length", "activation_embed")`, in
every branch: the constraint trace is exactly the corresponding list. -/
theorem all_intermediates_constrained_with_activation_axes
    (env : Collaborators) (cfg : Config) (mesh : MeshT) (quant : QuantT)
    (inputs : Tensor) (ids : SegIds) (pos : Positions) (det : Bool)
    (mode : ModelMode) (dense_layer : Bool) :
    (deepSeekDecoderLayerCall env cfg mesh quant inputs ids pos det mode
        dense_layer).constraints =
      (let lnx := env.RMSNorm (preSelfAttentionNormArgs cfg) inputs
       let attention_lnx := env.MLA (selfAttentionArgs env cfg mesh quant) lnx lnx
         { decoder_positions := pos, decoder_segment_ids := ids,
           deterministic := det, model_mode := mode }
       let intermediate_inputs := jnpAdd inputs attention_lnx
       let hidden_states := env.RMSNorm (postSelfAttentionNormArgs cfg) intermediate_inputs
       if dense_layer then
         let mlp_lnx := env.MlpBlock (denseMlpArgs cfg quant) hidden_states det
         [(inputs, activationAxes), (lnx, activationAxes),
          (attention_lnx, activationAxes), (hidden_states, activationAxes),
          (mlp_lnx, activationAxes),
          (jnpAdd mlp_lnx intermediate_inputs, activationAxes)]
       else
         let mlp_shared_lnx := env.MlpBlock (sharedMlpArgs cfg quant) hidden_states det
         let mlp_routed_lnx := (env.MoeBlock (moeArgs cfg mesh quant) hidden_states).1
         let mlp_lnx := jnpAdd mlp_shared_lnx mlp_routed_lnx
         [(inputs, activationAxes), (lnx, activationAxes),
          (attention_lnx, activationAxes), (hidden_states, activationAxes),
          (mlp_shared_lnx, activationAxes), (mlp_routed_lnx, activationAxes),
          (mlp_lnx, activationAxes),
          (jnpAdd mlp_lnx intermediate_inputs, activationAxes)]) := by
  cases dense_layer <;>
    simp [deepSeekDecoderLayerCall, withLogicalConstraint, checkpointName]

/-- Claim C8: the feed-forward hidden widths are related by exact integer
arithmetic on the config: the dense branch's `MlpBlock` intermediate
dimension is `cfg.mlp_dim * (cfg.num_experts_per_tok +
cfg.num_shared_experts)`, the mixture branch's shared `MlpBlock`
intermediate dimension is `cfg.mlp_dim * cfg.num_shared_experts`, so the
dense width equals the shared width plus the routed expert capacity
`cfg.mlp_dim * cfg.num_experts_per_tok`. -/
theorem mlp_intermediate_dims_match
    (cfg : Config) (quant : QuantT) :
    (denseMlpArgs cfg quant).intermediate_dim =
      cfg.mlp_dim * (cfg.num_experts_per_tok + cfg.num_shared_experts) ∧
    (sharedMlpArgs cfg quant).intermediate_dim =
      cfg.mlp_dim * cfg.num_shared_experts ∧
    (denseMlpArgs cfg quant).intermediate_dim =
      (sharedMlpArgs cfg quant).intermediate_dim +
        cfg.mlp_dim * cfg.num_experts_per_tok := by
  refine ⟨rfl, rfl, ?_⟩
  simp only [denseMlpArgs, sharedMlpArgs]
  ring

theorem activationFractionZero_mem_unit (t : Tensor) (ht : t ≠ []) :
    0 ≤ activationFractionZero t ∧ activationFractionZero t ≤ 1 := by
  have hlen : 0 < (t.length : ℚ) := by
    exact_mod_cast List.length_pos.mpr ht
  have hc : ((t.countP (fun x => x == 0) : ℕ) : ℚ) ≤ (t.length : ℚ) := by
    exact_mod_cast List.countP_le_length _
  unfold activationFractionZero jnpSize
  rw [jnpSumEqZero_eq_countP]
  refine ⟨by positivity, ?_⟩
  rw [div_le_one hlen]
  exact hc

/-- Claim C5: instrumentation is optional and controlled by
`cfg.record_internal_nn_metrics`: exactly when the flag is set, the layer
sows the three intermediates `activation_mean`, `activation_stdev` and
`activation_fraction_zero`, all computed from the final layer output; and
— provided the collaborator blocks do not distinguish configurations that
differ only in that flag (they are out-of-scope modules) — the returned
layer output is identical whether or not the flag is set. -/
theorem sowing_iff_record_internal_nn_metrics
    (env : Collaborators) (cfg : Config) (mesh : MeshT) (quant : QuantT)
    (inputs : Tensor) (ids : SegIds) (pos : Positions) (det : Bool)
    (mode : ModelMode) (dense_layer : Bool) (b : Bool)
    (hMLA : ∀ x y a,
      env.MLA (selfAttentionArgs env
          { cfg with record_internal_nn_metrics := b } mesh quant) x y a =
        env.MLA (selfAttentionArgs env cfg mesh quant) x y a)
    (hMlpDense : ∀ t d,
      env.MlpBlock (denseMlpArgs
          { cfg with record_internal_nn_metrics := b } quant) t d =
        env.MlpBlock (denseMlpArgs cfg quant) t d)
    (hMlpShared : ∀ t d,
      env.MlpBlock (sharedMlpArgs
          { cfg with record_internal_nn_metrics := b } quant) t d =
        env.MlpBlock (sharedMlpArgs cfg quant) t d)
    (hMoe : ∀ t,
      env.MoeBlock (moeArgs
          { cfg with record_internal_nn_metrics := b } mesh quant) t =
        env.MoeBlock (moeArgs cfg mesh quant) t) :
    (let out := (deepSeekDecoderLayerCall env cfg mesh quant inputs ids pos det
        mode dense_layer).result.layerOutput
     (deepSeekDecoderLayerCall env cfg mesh quant inputs ids pos det mode
        dense_layer).sows =
      (if cfg.record_internal_nn_metrics then
        [("intermediates", "activation_mean", SownValue.mean out),
         ("intermediates", "activation_stdev", SownValue.stdev out),
         ("intermediates", "activation_fraction_zero",
           SownValue.fractionZero (activationFractionZero out))]
      else [])) ∧
    (deepSeekDecoderLayerCall env { cfg with record_internal_nn_metrics := b }
        mesh quant inputs ids pos det mode dense_layer).result.layerOutput =
      (deepSeekDecoderLayerCall env cfg mesh quant inputs ids pos det mode
        dense_layer).result.layerOutput := by
  constructor
  · cases hr : cfg.record_internal_nn_metrics <;> cases dense_layer <;>
      simp [deepSeekDecoderLayerCall, withLogicalConstraint, checkpointName,
        layerOutput_ite, hr]
  · cases dense_layer <;>
      simp [deepSeekDecoderLayerCall, withLogicalConstraint, checkpointName,
        layerOutput_ite, preSelfAttentionNormArgs, postSelfAttentionNormArgs,
        hMLA, hMlpDense, hMlpShared, hMoe]

/-- Witness for C5: the sow/frame property evaluated at a concrete
environment, configuration and input, with every hypothesis discharged. -/
theorem sowing_iff_record_internal_nn_metrics_witness :
    (let out := (deepSeekDecoderLayerCall sampleEnv sampleConfig "mesh" none
        [1, 0] none [0, 1] true "train" false).result.layerOutput
     (deepSeekDecoderLayerCall sampleEnv sampleConfig "mesh" none
        [1, 0] none [0, 1] true "train" false).sows =
      (if sampleConfig.record_internal_nn_metrics then
        [("intermediates", "activation_mean", SownValue.mean out),
         ("intermediates", "activation_stdev", SownValue.stdev out),
         ("intermediates", "activation_fraction_zero",
           SownValue.fractionZero (activationFractionZero out))]
      else [])) ∧
    (deepSeekDecoderLayerCall sampleEnv
        { sampleConfig with record_internal_nn_metrics := false }
        "mesh" none [1, 0] none [0, 1] true "train" false).result.layerOutput =
      (deepSeekDecoderLayerCall sampleEnv sampleConfig "mesh" none
        [1, 0] none [0, 1] true "train" false).result.layerOutput :=
  sowing_iff_record_internal_nn_metrics sampleEnv sampleConfig "mesh" none
    [1, 0] none [0, 1] true "train" false false
    (fun _ _ _ => rfl) (fun _ _ => rfl) (fun _ _ => rfl) (fun _ => rfl)

/-- Claim C9: when `cfg.record_internal_nn_metrics` is set, the sown
`activation_fraction_zero` metric equals the count of entries of the final
layer output that are exactly zero divided by the total number of entries,
and for every non-empty layer output this value lies in `[0, 1]`. -/
theorem activation_fraction_zero_semantics
    (env : Collaborators) (cfg : Config) (mesh : MeshT) (quant : QuantT)
    (inputs : Tensor) (ids : SegIds) (pos : Positions) (det : Bool)
    (mode : ModelMode) (dense_layer : Bool)
    (hrec : cfg.record_internal_nn_metrics = true) :
    (deepSeekDecoderLayerCall env cfg mesh quant inputs ids pos det mode
        dense_layer).sows =
      [("intermediates", "activation_mean", SownValue.mean
          ((deepSeekDecoderLayerCall env cfg mesh quant inputs ids pos det mode
              dense_layer).result.layerOutput)),
       ("intermediates", "activation_stdev", SownValue.stdev
          ((deepSeekDecoderLayerCall env cfg mesh quant inputs ids pos det mode
              dense_layer).result.layerOutput)),
       ("intermediates", "activation_fraction_zero", SownValue.fractionZero
          (activationFractionZero
            ((deepSeekDecoderLayerCall env cfg mesh quant inputs ids pos det mode
                dense_layer).result.layerOutput)))] ∧
    (∀ t : Tensor, activationFractionZero t =
      ((t.countP (fun x => x == 0) : ℕ) : ℚ) / ((t.length : ℕ) : ℚ)) ∧
    ((deepSeekDecoderLayerCall env cfg mesh quant inputs ids pos det mode
        dense_layer).result.layerOutput ≠ [] →
      0 ≤ activationFractionZero
          ((deepSeekDecoderLayerCall env cfg mesh quant inputs ids pos det mode
              dense_layer).result.layerOutput) ∧
        activationFractionZero
          ((deepSeekDecoderLayerCall env cfg mesh quant inputs ids pos det mode
              dense_layer).result.layerOutput) ≤ 1) := by
  refine ⟨?_, ?_, fun h => activationFractionZero_mem_unit _ h⟩
  · cases dense_layer <;>
      simp [deepSeekDecoderLayerCall, withLogicalConstraint, checkpointName,
        layerOutput_ite, hrec]
  · intro t
    unfold activationFractionZero jnpSize
    rw [jnpSumEqZero_eq_countP]

/-- Witness for C9 at a concrete environment, configuration and input. -/
theorem activation_fraction_zero_semantics_witness :
    sampleConfig.record_internal_nn_metrics = true ∧
    ((deepSeekDecoderLayerCall sampleEnv sampleConfig "mesh" none
        [1, 0] none [0, 1] true "train" true).sows =
      [("intermediates", "activation_mean", SownValue.mean
          ((deepSeekDecoderLayerCall sampleEnv sampleConfig "mesh" none
              [1, 0] none [0, 1] true "train" true).result.layerOutput)),
       ("intermediates", "activation_stdev", SownValue.stdev
          ((deepSeekDecoderLayerCall sampleEnv sampleConfig "mesh" none
              [1, 0] none [0, 1] true "train" true).result.layerOutput)),
       ("intermediates", "activation_fraction_zero", SownValue.fractionZero
          (activationFractionZero
            ((deepSeekDecoderLayerCall sampleEnv sampleConfig "mesh" none
                [1, 0] none [0, 1] true "train" true).result.layerOutput)))] ∧
    (∀ t : Tensor, activationFractionZero t =
      ((t.countP (fun x => x == 0) : ℕ) : ℚ) / ((t.length : ℕ) : ℚ)) ∧
    ((deepSeekDecoderLayerCall sampleEnv sampleConfig "mesh" none
        [1, 0] none [0, 1] true "train" true).result.layerOutput ≠ [] →
      0 ≤ activationFractionZero
          ((deepSeekDecoderLayerCall sampleEnv sampleConfig "mesh" none
              [1, 0] none [0, 1] true "train" true).result.layerOutput) ∧
        activationFractionZero
          ((deepSeekDecoderLayerCall sampleEnv sampleConfig "mesh" none
              [1, 0] none [0, 1] true "train" true).result.layerOutput) ≤ 1)) :=
  ⟨rfl, activation_fraction_zero_semantics sampleEnv sampleConfig "mesh" none
    [1, 0] none [0, 1] true "train" true rfl⟩

/-- Witness for C7 at a concrete environment, configuration and input,
exercising both values of `scan_layers`. -/
theorem returnShape_depends_only_on_scan_layers_witness :
    (({ sampleConfig with scan_layers := true } : Config).scan_layers = true ∧
     (deepSeekDecoderLayerCall sampleEnv
        { sampleConfig with scan_layers := true } "mesh" none
        [1, 0] none [0, 1] true "train" true).result =
       CallResult.pair
         ((deepSeekDecoderLayerCall sampleEnv
             { sampleConfig with scan_layers := true } "mesh" none
             [1, 0] none [0, 1] true "train" true).result.layerOutput) none) ∧
    (sampleConfig.scan_layers = false ∧
     (deepSeekDecoderLayerCall sampleEnv sampleConfig "mesh" none
        [1, 0] none [0, 1] true "train" true).result =
       CallResult.single
         ((deepSeekDecoderLayerCall sampleEnv sampleConfig "mesh" none
             [1, 0] none [0, 1] true "train" true).result.layerOutput)) :=
  ⟨⟨rfl, (returnShape_depends_only_on_scan_layers sampleEnv
      { sampleConfig with scan_layers := true } "mesh" none
      [1, 0] none [0, 1] true "train" true).2.1 rfl⟩,
   ⟨rfl, (returnShape_depends_only_on_scan_layers sampleEnv sampleConfig "mesh"
      none [1, 0] none [0, 1] true "train" true).2.2 rfl⟩⟩
